import Mathlib

/-!
Verification of `src/document_processor.py`: a batch pipeline over legal
documents that extracts raw text, detects languages, classifies the
document type with one generative-model call and produces an analysis
with a second one.

External effects are modelled by oracles:

* generative-model calls (`model.generate_content`) become functions
  `String → Except String String`; an `Except.error e` models a raised
  exception whose `str(e)` is `e`, an `Except.ok r` models a reply whose
  `.text` is `r`;
* `langdetect.detect_langs` becomes `String → Except String (List LangProb)`
  with probabilities as rationals, `langdetect.detect` becomes
  `String → Except String String`;
* per-format text extraction becomes `String → Option String` (`none`
  models the `None` that `extract_text_from_pdf` / `extract_text_from_docx`
  return on failure).

Python `str` values are embedded as Lean `String` (both index by code
points); the Python string methods used by the source are given
executable embeddings on `String.data` below.
-/

/-- Python `str.lower` on one character (the ASCII range, which covers
every literal this program compares against). -/
def pyLowerChar (c : Char) : Char :=
  if 'A' ≤ c ∧ c ≤ 'Z' then Char.ofNat (c.toNat + 32) else c

/-- Python `str.lower`. -/
def pyLower (s : String) : String := ⟨s.data.map pyLowerChar⟩

/-- Python whitespace as stripped by `str.strip()` (ASCII part). -/
def pySpace (c : Char) : Bool :=
  c = ' ' || c = '\t' || c = '\n' || c = '\r' || c = '\x0b' || c = '\x0c'

/-- Python `str.strip()`. -/
def pyStrip (s : String) : String :=
  ⟨((s.data.dropWhile pySpace).reverse.dropWhile pySpace).reverse⟩

/-- Python `len` on a string (code points). -/
def pyLen (s : String) : Nat := s.data.length

/-- Python slicing `s[:n]`. -/
def pyTake (s : String) (n : Nat) : String := ⟨s.data.take n⟩

/-- Python `s.startswith(p)`. -/
def pyStartsWith (s p : String) : Bool := p.data.isPrefixOf s.data

/-- Python `s.endswith(p)`. -/
def pyEndsWith (s p : String) : Bool := p.data.isSuffixOf s.data

/-- Helper for `pyContains`: does `pat` occur in the subject list? -/
def pyContainsAux (pat : List Char) : List Char → Bool
  | [] => pat.isPrefixOf []
  | c :: rest => pat.isPrefixOf (c :: rest) || pyContainsAux pat rest

/-- Python `pat in s` (substring containment). -/
def pyContains (s pat : String) : Bool := pyContainsAux pat.data s.data

/-- Helper for `pySplitChar`: accumulate the current field in reverse. -/
def pySplitCharAux (sep : Char) : List Char → List Char → List String
  | [], acc => [⟨acc.reverse⟩]
  | c :: rest, acc =>
    if c = sep then ⟨acc.reverse⟩ :: pySplitCharAux sep rest []
    else pySplitCharAux sep rest (c :: acc)

/-- Python `s.split(sep)` for a one-character separator. -/
def pySplitChar (s : String) (sep : Char) : List String :=
  pySplitCharAux sep s.data []

/-- Helper for `pyReplace`: Python replaces non-overlapping occurrences
left to right.  `fuel` only bounds the recursion; it is instantiated with
the length of the subject, which is enough for a non-empty pattern since
every step consumes at least one character of the subject. -/
def pyReplaceAux (pat rep : List Char) : Nat → List Char → List Char
  | _, [] => []
  | 0, s => s
  | fuel + 1, c :: rest =>
    if pat.isPrefixOf (c :: rest) then
      rep ++ pyReplaceAux pat rep fuel (List.drop pat.length (c :: rest))
    else
      c :: pyReplaceAux pat rep fuel rest

/-- Python `s.replace(pat, rep)` for a non-empty pattern. -/
def pyReplace (s pat rep : String) : String :=
  ⟨pyReplaceAux pat.data rep.data s.data.length s.data⟩

/-! ## Language detection (`detect_document_languages`, lines 41–52) -/

/-- One candidate produced by `langdetect.detect_langs`: a language code
(`.lang`) and a probability (`.prob`, modelled as a rational). -/
structure LangProb where
  lang : String
  prob : ℚ
deriving DecidableEq

/-- Function `detect_document_languages(text)` (lines 41–52): the primary
statistical detector's candidates as `(code, probability)` pairs; on an
exception, a single best-guess `(code, 1.0)`; if that raises as well,
`[("unknown", 0.0)]`. -/
def detect_document_languages
    (detectLangs : String → Except String (List LangProb))
    (detectOne : String → Except String String)
    (text : String) : List (String × ℚ) :=
  match detectLangs text with
  | .ok languages => languages.map (fun l => (l.lang, l.prob))
  | .error _ =>
    match detectOne text with
    | .ok code => [(code, 1)]
    | .error _ => [("unknown", 0)]

/-! ## Document-type classification (`detect_document_type_with_gemini`,
lines 54–104) -/

/-- The fixed instruction prompt built at lines 60–79 (a triple-quoted
literal, kept byte-for-byte including its indentation). -/
def typePrompt : String :=
  "Please analyze this legal document and identify its specific type.\n        Focus on determining if it's one of these types:\n        - NDA (Non-Disclosure Agreement)\n        - Contract\n        - Agreement (specify type if possible)\n        - Power of Attorney\n        - Loan Agreement\n        - Share Purchase Agreement\n        - Partnership Agreement\n        - Service Agreement\n        - Employment Agreement\n        - Other (please specify)\n\n        Provide your response in this format:\n        Type: [document type]\n        Confidence: [HIGH/MEDIUM/LOW]\n        Reasoning: [brief explanation]\n\n        First 1000 characters of the document:\n        "

/-- Line 82, `sample_text`: the first 1000 characters, with an ellipsis
marker appended when the text was longer. -/
def sampleText (text : String) : String :=
  if pyLen text > 1000 then pyTake text 1000 ++ "..." else text

/-- Line 83, `full_prompt`: `f"{prompt}\n{sample_text}"`. -/
def typeFullPrompt (text : String) : String :=
  typePrompt ++ "\n" ++ sampleText text

/-- Line 89: the reply lines that start with `Type:`, in order. -/
def typeLines (response_text : String) : List String :=
  (pySplitChar response_text '\n').filter (fun line => pyStartsWith line "Type:")

/-- Lines 93–100: keyword normalisation of the extracted type string. -/
def normalizeDocType (doc_type : String) : String :=
  if pyContains doc_type "nda" || pyContains doc_type "non-disclosure" then "nda"
  else if pyContains doc_type "agreement" then "agreement"
  else if pyContains doc_type "contract" then "contract"
  else doc_type

/-- Lines 89–101: parse a model reply into a label.  Note line 91 applies
`str.replace("Type:", "")` to the whole line, deleting every occurrence
of `Type:`, then strips and lower-cases. -/
def parseTypeReply (response_text : String) : String :=
  match typeLines response_text with
  | line :: _ => normalizeDocType (pyLower (pyStrip (pyReplace line "Type:" "")))
  | [] => "default"

/-- Function `detect_document_type_with_gemini(text)` (lines 54–104) with the
model call as an oracle; any exception yields `"default"` (line 104). -/
def detect_document_type_with_gemini (resp : String → Except String String)
    (text : String) : String :=
  match resp (typeFullPrompt text) with
  | .ok response_text => parseTypeReply response_text
  | .error _ => "default"

/-! ## Prompt selection (`get_summarization_prompt`, lines 106–173) -/

/-- Entry `prompts['nda']['en']` (lines 110–115). -/
def nda_en : String :=
  "Please analyze this Non-Disclosure Agreement and provide:\n                    1. Key parties involved\n                    2. Scope of confidentiality\n                    3. Duration of the agreement\n                    4. Key obligations and restrictions\n                    5. Notable exceptions or special clauses"

/-- Entry `prompts['nda']['id']` (lines 116–121). -/
def nda_id : String :=
  "Mohon analisis Perjanjian Kerahasiaan ini dan berikan:\n                    1. Pihak-pihak utama yang terlibat\n                    2. Ruang lingkup kerahasiaan\n                    3. Durasi perjanjian\n                    4. Kewajiban dan pembatasan utama\n                    5. Pengecualian atau klausul khusus yang penting"

/-- Entry `prompts['contract']['en']` (lines 124–130). -/
def contract_en : String :=
  "Please analyze this Contract and provide:\n                    1. Type of contract and main purpose\n                    2. Key parties and their roles\n                    3. Main terms and conditions\n                    4. Key obligations of each party\n                    5. Important dates and deadlines\n                    6. Notable special provisions"

/-- Entry `prompts['contract']['id']` (lines 131–137). -/
def contract_id : String :=
  "Mohon analisis Kontrak ini dan berikan:\n                    1. Jenis kontrak dan tujuan utama\n                    2. Pihak-pihak utama dan peran mereka\n                    3. Syarat dan ketentuan utama\n                    4. Kewajiban utama setiap pihak\n                    5. Tanggal dan tenggat waktu penting\n                    6. Ketentuan khusus yang penting"

/-- Entry `prompts['agreement']['en']` (lines 140–146). -/
def agreement_en : String :=
  "Please analyze this Agreement and provide:\n                    1. Type and purpose of the agreement\n                    2. Parties involved and their roles\n                    3. Key terms and conditions\n                    4. Rights and obligations\n                    5. Duration and termination conditions\n                    6. Special provisions or notable clauses"

/-- Entry `prompts['agreement']['id']` (lines 147–153). -/
def agreement_id : String :=
  "Mohon analisis Perjanjian ini dan berikan:\n                    1. Jenis dan tujuan perjanjian\n                    2. Pihak-pihak yang terlibat dan peran mereka\n                    3. Syarat dan ketentuan utama\n                    4. Hak dan kewajiban\n                    5. Durasi dan kondisi pengakhiran\n                    6. Ketentuan khusus atau klausul penting"

/-- Entry `prompts['default']['en']` (lines 156–161). -/
def default_en : String :=
  "Please analyze this legal document and provide:\n                    1. Document type and purpose\n                    2. Key parties involved\n                    3. Main provisions and terms\n                    4. Important dates or deadlines\n                    5. Notable special clauses or conditions"

/-- Entry `prompts['default']['id']` (lines 162–167). -/
def default_id : String :=
  "Mohon analisis dokumen hukum ini dan berikan:\n                    1. Jenis dan tujuan dokumen\n                    2. Pihak-pihak utama yang terlibat\n                    3. Ketentuan dan syarat utama\n                    4. Tanggal atau tenggat waktu penting\n                    5. Klausul atau kondisi khusus yang penting"

/-- An inner dictionary of the `prompts` table: the two language keys
`'en'` and `'id'`; indexing with any other key would be a `KeyError`,
modelled as `none`. -/
def langDict (en_text id_text : String) (lang : String) : Option String :=
  if lang = "en" then some en_text
  else if lang = "id" then some id_text
  else none

/-- Line 173, `prompts.get(doc_type, prompts['default'])`: the row for a
known label, the `'default'` row otherwise. -/
def promptsGet (doc_type : String) : String → Option String :=
  if doc_type = "nda" then langDict nda_en nda_id
  else if doc_type = "contract" then langDict contract_en contract_id
  else if doc_type = "agreement" then langDict agreement_en agreement_id
  else langDict default_en default_id

/-- Function `get_summarization_prompt(doc_type, language)` (lines 106–173) with
the final dictionary indexing kept as an `Option` (a `KeyError` would be
`none`; totality is proved below). -/
def get_summarization_prompt? (doc_type language : String) : Option String :=
  let lang := if ¬ (language = "en" ∨ language = "id") then "en" else language
  promptsGet doc_type lang

/-- Function `get_summarization_prompt` as the string it returns (the `Option` is
never `none`, see the totality theorem). -/
def get_summarization_prompt (doc_type language : String) : String :=
  (get_summarization_prompt? doc_type language).getD ""

/-! ## Analysis (`analyze_with_gemini`, lines 175–190) -/

/-- The truncation marker appended at line 184. -/
def truncationMarker : String := "\n[Document truncated due to length...]"

/-- Line 182, `max_chars`. -/
def maxChars : Nat := 30000

/-- Lines 183–184: the document text as it is embedded into the prompt,
truncated to `max_chars` characters with the marker appended when longer. -/
def analysisText (text : String) : String :=
  if pyLen text > maxChars then pyTake text maxChars ++ truncationMarker else text

/-- `full_prompt` (line 186): `f"{prompt}\n\nDocument text:\n{text}"`. -/
def analysisFullPrompt (prompt text : String) : String :=
  prompt ++ "\n\nDocument text:\n" ++ analysisText text

/-- Function `analyze_with_gemini(text, doc_type, language)` (lines 175–190) with
the model call as an oracle; an exception with message `e` yields
`"Error using Gemini API: " ++ e` (line 190). -/
def analyze_with_gemini (resp : String → Except String String)
    (text doc_type language : String) : String :=
  match resp (analysisFullPrompt (get_summarization_prompt doc_type language) text) with
  | .ok reply => reply
  | .error e => "Error using Gemini API: " ++ e

/-! ## Orchestrator (`process_legal_documents`, lines 192–236) -/

/-- The external world of one run: text extraction per format and the
three remote detectors/models, all as oracles. -/
structure Env where
  extract_pdf : String → Option String
  extract_docx : String → Option String
  detectLangs : String → Except String (List LangProb)
  detectOne : String → Except String String
  typeResp : String → Except String String
  analysisResp : String → Except String String

/-- One result record (lines 224–229). -/
structure DocumentRecord where
  file_path : String
  doc_type : String
  languages : List (String × ℚ)
  analysis : String
deriving DecidableEq

/-- Line 200: `file.lower().endswith(('.pdf', '.docx')) and not
file.startswith('~$')`. -/
def supportedFile (file : String) : Bool :=
  (pyEndsWith (pyLower file) ".pdf" || pyEndsWith (pyLower file) ".docx")
    && !(pyStartsWith file "~$")

/-- Lines 205–208: the per-format extraction dispatch on the joined path
`Path(root) / file`. -/
def extractedText (env : Env) (root file : String) : Option String :=
  if pyEndsWith (pyLower file) ".pdf" then env.extract_pdf (root ++ "/" ++ file)
  else env.extract_docx (root ++ "/" ++ file)

/-- Line 213: `languages[0][0] if languages else 'unknown'`. -/
def primaryLanguage : List (String × ℚ) → String
  | [] => "unknown"
  | l :: _ => l.1

/-- The body of the walker loop for one `(root, file)` pair (lines
200–229): `none` when no record is appended.  Note line 210 tests `if
text:`, which is false both for `None` and for the empty string. -/
def processFile (env : Env) (root file : String) : Option DocumentRecord :=
  if supportedFile file then
    match extractedText env root file with
    | some text =>
      if text ≠ "" then
        let languages := detect_document_languages env.detectLangs env.detectOne text
        let doc_type := detect_document_type_with_gemini env.typeResp text
        let analysis :=
          analyze_with_gemini env.analysisResp text doc_type (primaryLanguage languages)
        some ⟨root ++ "/" ++ file, doc_type, languages, analysis⟩
      else none
    | none => none
  else none

/-- Function `process_legal_documents(base_path)` (lines 192–236) over the walk
order of the directory tree, given as the list of `(root, file)` pairs
that `os.walk` yields. -/
def process_legal_documents (env : Env) (files : List (String × String)) :
    List DocumentRecord :=
  files.filterMap (fun rf => processFile env rf.1 rf.2)

/-- C4: The prompt selector is total: one of the eight table entries,
with unsupported languages remapped to `'en'` and unknown labels to the
`'default'` row. -/
theorem get_summarization_prompt_total (doc_type language : String) :
    ((get_summarization_prompt? doc_type language).isSome = true) ∧
    get_summarization_prompt doc_type language ∈
      [nda_en, nda_id, contract_en, contract_id, agreement_en, agreement_id,
        default_en, default_id] ∧
    (¬ (language = "en" ∨ language = "id") →
      get_summarization_prompt doc_type language =
        get_summarization_prompt doc_type "en") ∧
    (doc_type ∉ (["nda", "contract", "agreement", "default"] : List String) →
      get_summarization_prompt doc_type language =
        get_summarization_prompt "default" language) := by
  by_cases he : language = "en" <;> by_cases hi : language = "id" <;>
    by_cases h1 : doc_type = "nda" <;> by_cases h2 : doc_type = "contract" <;>
      by_cases h3 : doc_type = "agreement" <;>
        simp_all [get_summarization_prompt, get_summarization_prompt?, promptsGet,
          langDict]

theorem get_summarization_prompt_total_witness :
    ((get_summarization_prompt? "deed  7" "fr").isSome = true) ∧
    get_summarization_prompt "deed  7" "fr" = get_summarization_prompt "deed  7" "en" ∧
    get_summarization_prompt "deed  7" "fr" = get_summarization_prompt "default" "fr" :=
  ⟨(get_summarization_prompt_total "deed  7" "fr").1,
   (get_summarization_prompt_total "deed  7" "fr").2.2.1 (by decide),
   (get_summarization_prompt_total "deed  7" "fr").2.2.2 (by decide)⟩

/-- C3: Text of length at most 30000 is embedded unmodified in the
analysis prompt; longer text is cut to its first 30000 characters and the
fixed truncation marker is appended, after the selected template and the
`Document text:` header. -/
theorem analysis_prompt_truncation (prompt text : String) :
    (pyLen text ≤ 30000 →
      analysisFullPrompt prompt text = prompt ++ "\n\nDocument text:\n" ++ text) ∧
    (pyLen text > 30000 →
      analysisFullPrompt prompt text =
        prompt ++ "\n\nDocument text:\n" ++ (pyTake text 30000 ++ truncationMarker)) := by
  constructor
  · intro h
    have hn : ¬ 30000 < pyLen text := by omega
    simp [analysisFullPrompt, analysisText, maxChars, hn]
  · intro h
    have hy : 30000 < pyLen text := h
    simp [analysisFullPrompt, analysisText, maxChars, hy]

/-- A concrete text of 30001 characters, exceeding the analyzer's limit. -/
def longText : String := ⟨List.replicate 30001 'a'⟩

theorem analysis_prompt_truncation_witness :
    analysisFullPrompt "p" "abc" = "p" ++ "\n\nDocument text:\n" ++ "abc" ∧
    analysisFullPrompt "p" longText =
      "p" ++ "\n\nDocument text:\n" ++ (pyTake longText 30000 ++ truncationMarker) :=
  ⟨(analysis_prompt_truncation "p" "abc").1 (by decide),
   (analysis_prompt_truncation "p" longText).2 (by
      show 30000 < (List.replicate 30001 'a').length
      rw [List.length_replicate]
      omega)⟩

/-- C7: `analyze_with_gemini` never raises: an exception from the
model call becomes the string `"Error using Gemini API: " ++ e`, and a
successful reply is returned verbatim. -/
theorem analyze_with_gemini_never_raises (resp : String → Except String String)
    (text doc_type language : String) :
    (∀ e, resp (analysisFullPrompt (get_summarization_prompt doc_type language) text)
        = .error e →
      analyze_with_gemini resp text doc_type language = "Error using Gemini API: " ++ e) ∧
    (∀ reply, resp (analysisFullPrompt (get_summarization_prompt doc_type language) text)
        = .ok reply →
      analyze_with_gemini resp text doc_type language = reply) := by
  constructor <;> intro r h <;> simp [analyze_with_gemini, h]

/-- A model oracle that always raises. -/
def respRaise : String → Except String String := fun _ => .error "quota exhausted"

theorem analyze_with_gemini_never_raises_witness :
    analyze_with_gemini respRaise "text" "nda" "en" =
      "Error using Gemini API: " ++ "quota exhausted" :=
  (analyze_with_gemini_never_raises respRaise "text" "nda" "en").1 "quota exhausted" rfl

/-- Ordered by descending confidence (each earlier entry's confidence is
at least each later one's). -/
def sortedByDescProb (l : List (String × ℚ)) : Prop :=
  l.Pairwise (fun a b => b.2 ≤ a.2)

/-- C5: When the primary statistical detector succeeds (and, as a
probability distribution, lists its candidates in descending order of
probability), `detect_document_languages` returns exactly those
`(code, probability)` pairs in that order, so the list is sorted by
descending probability and the first pair's confidence is the maximum. -/
theorem detect_languages_sorted
    (detectLangs : String → Except String (List LangProb))
    (detectOne : String → Except String String) (text : String)
    (best : LangProb) (others : List LangProb)
    (hok : detectLangs text = .ok (best :: others))
    (hsorted : (best :: others).Pairwise (fun a b => b.prob ≤ a.prob)) :
    detect_document_languages detectLangs detectOne text =
      (best :: others).map (fun l => (l.lang, l.prob)) ∧
    sortedByDescProb (detect_document_languages detectLangs detectOne text) ∧
    (detect_document_languages detectLangs detectOne text).head? =
      some (best.lang, best.prob) ∧
    ∀ p ∈ detect_document_languages detectLangs detectOne text, p.2 ≤ best.prob := by
  have heq : detect_document_languages detectLangs detectOne text =
      (best :: others).map (fun l => (l.lang, l.prob)) := by
    simp [detect_document_languages, hok]
  refine ⟨heq, ?_, ?_, ?_⟩
  · rw [heq]
    exact (List.pairwise_map).mpr (hsorted.imp (fun h => h))
  · rw [heq]
    rfl
  · intro p hp
    rw [heq] at hp
    rcases List.mem_map.mp hp with ⟨l, hl, hlp⟩
    rcases List.mem_cons.mp hl with h | h
    · subst h
      simp [← hlp]
    · have := (List.pairwise_cons.mp hsorted).1 l h
      simpa [← hlp] using this

/-- A primary detector that succeeds with two candidates in descending
order. -/
def dlTwo : String → Except String (List LangProb) :=
  fun _ => .ok [⟨"en", 1⟩, ⟨"id", 0⟩]

/-- A fallback detector that succeeds with a single best guess. -/
def d1En : String → Except String String := fun _ => .ok "en"

theorem detect_languages_sorted_witness :
    detect_document_languages dlTwo d1En "text" =
      ([⟨"en", 1⟩, ⟨"id", 0⟩] : List LangProb).map (fun l => (l.lang, l.prob)) ∧
    ("id", (0 : ℚ)).2 ≤ (1 : ℚ) :=
  ⟨(detect_languages_sorted dlTwo d1En "text" ⟨"en", 1⟩ [⟨"id", 0⟩] rfl
      (by simp [List.pairwise_cons])).1,
   (detect_languages_sorted dlTwo d1En "text" ⟨"en", 1⟩ [⟨"id", 0⟩] rfl
      (by simp [List.pairwise_cons])).2.2.2 ("id", 0) (by decide)⟩

/-- C6: `detect_document_languages` never raises and, as long as a
successful primary detection is a (non-empty) distribution, always
returns at least one pair; a primary exception falls back to a single
`(code, 1.0)` best guess, and a second exception to `[("unknown", 0.0)]`. -/
theorem detect_languages_never_fails
    (detectLangs : String → Except String (List LangProb))
    (detectOne : String → Except String String) (text : String)
    (hne : ∀ L, detectLangs text = .ok L → L ≠ []) :
    detect_document_languages detectLangs detectOne text ≠ [] ∧
    (∀ e code, detectLangs text = .error e → detectOne text = .ok code →
      detect_document_languages detectLangs detectOne text = [(code, 1)]) ∧
    (∀ e e₂, detectLangs text = .error e → detectOne text = .error e₂ →
      detect_document_languages detectLangs detectOne text = [("unknown", 0)]) := by
  refine ⟨?_, ?_, ?_⟩
  · cases hdl : detectLangs text with
    | ok L =>
      have := hne L hdl
      cases L with
      | nil => exact absurd rfl this
      | cons a l => simp [detect_document_languages, hdl]
    | error e =>
      cases hd1 : detectOne text <;> simp [detect_document_languages, hdl, hd1]
  · intro e code hdl hd1
    simp [detect_document_languages, hdl, hd1]
  · intro e e₂ hdl hd1
    simp [detect_document_languages, hdl, hd1]

/-- A primary detector that raises. -/
def dlRaise : String → Except String (List LangProb) :=
  fun _ => .error "No features in text."

theorem detect_languages_never_fails_witness :
    detect_document_languages dlRaise d1En "x" ≠ [] ∧
    detect_document_languages dlRaise d1En "x" = [("en", 1)] :=
  ⟨(detect_languages_never_fails dlRaise d1En "x"
      (fun _ h => Except.noConfusion h)).1,
   (detect_languages_never_fails dlRaise d1En "x"
      (fun _ h => Except.noConfusion h)).2.1 "No features in text." "en" rfl rfl⟩

/-- The parse step as the claim words it: strip only the *leading*
`Type:` prefix (5 characters), then surrounding whitespace, lower-case,
and match keywords — for comparison with `parseTypeReply`, which instead
deletes every occurrence of `Type:` in the line. -/
def parseTypeReplyPrefixOnly (response_text : String) : String :=
  match typeLines response_text with
  | line :: _ => normalizeDocType (pyLower (pyStrip ⟨line.data.drop 5⟩))
  | [] => "default"

/-- A model oracle whose reply's `Type:` line contains `Type:` twice. -/
def respDoubledType : String → Except String String :=
  fun _ => .ok "Type: Deed Type: 7"

/-- C2, counterexample: On the reply `"Type: Deed Type: 7"` the code
returns `"deed  7"` (every occurrence of `Type:` deleted), not the
`"deed type: 7"` that stripping only the prefix would give. -/
theorem classifier_prefix_strip_refuted :
    detect_document_type_with_gemini respDoubledType "doc" = "deed  7" ∧
    parseTypeReplyPrefixOnly "Type: Deed Type: 7" = "deed type: 7" ∧
    ("deed  7" : String) ≠ "deed type: 7" := by decide

/-- C2, amended: For every model reply, the classifier takes the
first line beginning with `Type:` (returning `"default"` when there is
none), deletes every occurrence of `Type:` in that line, strips
whitespace, lower-cases, and classifies by substring match in priority
order nda/non-disclosure, then agreement, then contract, returning the
processed string verbatim otherwise; the reply
`"Type: This is an NDA/Contract hybrid"` classifies as `"nda"`. -/
theorem classifier_reply_parsing (resp : String → Except String String)
    (text reply : String) (hok : resp (typeFullPrompt text) = .ok reply) :
    (typeLines reply = [] →
      detect_document_type_with_gemini resp text = "default") ∧
    (∀ line rest, typeLines reply = line :: rest →
      detect_document_type_with_gemini resp text =
        (let d := pyLower (pyStrip (pyReplace line "Type:" ""))
         if pyContains d "nda" || pyContains d "non-disclosure" then "nda"
         else if pyContains d "agreement" then "agreement"
         else if pyContains d "contract" then "contract"
         else d)) ∧
    detect_document_type_with_gemini
      (fun _ => .ok "Type: This is an NDA/Contract hybrid") text = "nda" := by
  refine ⟨?_, ?_, ?_⟩
  · intro hempty
    simp [detect_document_type_with_gemini, hok, parseTypeReply, hempty]
  · intro line rest hline
    simp [detect_document_type_with_gemini, hok, parseTypeReply, hline,
      normalizeDocType]
  · show parseTypeReply "Type: This is an NDA/Contract hybrid" = "nda"
    decide

/-- A model oracle replying without any `Type:` line. -/
def respNoTypeLine : String → Except String String :=
  fun _ => .ok "I cannot determine the document type."

theorem classifier_reply_parsing_witness :
    detect_document_type_with_gemini respNoTypeLine "doc" = "default" :=
  (classifier_reply_parsing respNoTypeLine "doc"
    "I cannot determine the document type." rfl).1 (by decide)

/-- The environment with the classifier oracle replaced (all other fields kept). -/
def withTypeResp (env : Env) (resp : String → Except String String) : Env :=
  ⟨env.extract_pdf, env.extract_docx, env.detectLangs, env.detectOne, resp,
   env.analysisResp⟩

/-- Which files yield a record never depends on the classifier oracle:
the record's `file_path` and its very existence are decided before and
independently of the classification call. -/
theorem processFile_path_classifier_independent (env : Env)
    (r₁ r₂ : String → Except String String) (root file : String) :
    (processFile (withTypeResp env r₁) root file).map (fun d => d.file_path) =
      (processFile (withTypeResp env r₂) root file).map (fun d => d.file_path) := by
  by_cases hs : supportedFile file
  · simp only [processFile, hs, if_true]
    have hx : extractedText (withTypeResp env r₁) root file =
        extractedText (withTypeResp env r₂) root file := rfl
    rw [hx]
    cases hx2 : extractedText (withTypeResp env r₂) root file with
    | none => rfl
    | some t => by_cases ht : t = "" <;> simp [ht]
  · simp [processFile, hs]

/-- C8: An exception in the classifier's model call is converted to
the label `"default"` and never propagated; moreover the batch is
unaffected: which files produce records (and their paths) is the same
whatever the classifier oracle does. -/
theorem classifier_failure_yields_default (resp : String → Except String String)
    (text e : String) (h : resp (typeFullPrompt text) = .error e) :
    detect_document_type_with_gemini resp text = "default" ∧
    (∀ (env : Env) (r₂ : String → Except String String)
        (files : List (String × String)),
      (process_legal_documents (withTypeResp env resp) files).map
          (fun d => d.file_path) =
        (process_legal_documents (withTypeResp env r₂) files).map
          (fun d => d.file_path)) := by
  constructor
  · simp [detect_document_type_with_gemini, h]
  · intro env r₂ files
    simp only [process_legal_documents, List.map_filterMap]
    exact List.filterMap_congr (fun rf _ =>
      processFile_path_classifier_independent env resp r₂ rf.1 rf.2)

theorem classifier_failure_yields_default_witness :
    detect_document_type_with_gemini respRaise "document" = "default" :=
  (classifier_failure_yields_default respRaise "document" "quota exhausted" rfl).1

/-- C10: When a `Type:` line is found, the classifier's label is
computed from the line with *every* occurrence of the substring `Type:`
deleted (not only the leading prefix) before trimming, lower-casing and
keyword matching; in particular the reply `"Type: Type: Contract"`
yields `"contract"`. -/
theorem classifier_removes_all_type_markers (resp : String → Except String String)
    (text reply line : String) (hok : resp (typeFullPrompt text) = .ok reply)
    (hline : (typeLines reply).head? = some line) :
    detect_document_type_with_gemini resp text =
      normalizeDocType (pyLower (pyStrip (pyReplace line "Type:" ""))) ∧
    detect_document_type_with_gemini
      (fun _ => .ok "Type: Type: Contract") text = "contract" := by
  constructor
  · cases htl : typeLines reply with
    | nil => rw [htl] at hline; exact absurd hline (by simp)
    | cons a rest =>
      rw [htl] at hline
      simp only [List.head?_cons, Option.some.injEq] at hline
      subst hline
      simp [detect_document_type_with_gemini, hok, parseTypeReply, htl]
  · show parseTypeReply "Type: Type: Contract" = "contract"
    decide

/-- A model oracle whose `Type:` line has a second `Type:` marker inside
the category name. -/
def respInteriorType : String → Except String String :=
  fun _ => .ok "Reasoning: unclear\nType: NDA Type: B7"

theorem classifier_removes_all_type_markers_witness :
    detect_document_type_with_gemini respInteriorType "doc" =
      normalizeDocType (pyLower (pyStrip
        (pyReplace "Type: NDA Type: B7" "Type:" ""))) :=
  (classifier_removes_all_type_markers respInteriorType "doc"
    "Reasoning: unclear\nType: NDA Type: B7" "Type: NDA Type: B7" rfl (by decide)).1

/-- An environment whose PDF extractor succeeds with the empty string
(e.g. a PDF whose pages carry no extractable text). -/
def envEmptyText : Env :=
  ⟨fun _ => some "", fun _ => none,
   fun _ => .error "No features in text.", fun _ => .error "No features in text.",
   fun _ => .error "offline", fun _ => .error "offline"⟩

/-- C1, counterexample: Extraction yields a non-null result (the
empty string), yet no record is emitted: line 210 tests `if text:`,
which is false for the empty string, not only for `None`. -/
theorem orchestrator_record_per_file_refuted :
    envEmptyText.extract_pdf "docs/a.pdf" = some "" ∧
    process_legal_documents envEmptyText [("docs", "a.pdf")] = [] := by decide

/-- C1, amended: For every file the orchestrator reaches, if
extraction yields null *or the empty string* the file is skipped
entirely (no record, no error); otherwise exactly one record with fields
`file_path`, `doc_type`, `languages`, `analysis` is appended to the
result list. -/
theorem orchestrator_record_per_file (env : Env) (root file : String)
    (hsup : supportedFile file = true) :
    (extractedText env root file = none → processFile env root file = none) ∧
    (extractedText env root file = some "" → processFile env root file = none) ∧
    (∀ text, extractedText env root file = some text → text ≠ "" →
      processFile env root file = some
        ⟨root ++ "/" ++ file,
         detect_document_type_with_gemini env.typeResp text,
         detect_document_languages env.detectLangs env.detectOne text,
         analyze_with_gemini env.analysisResp text
           (detect_document_type_with_gemini env.typeResp text)
           (primaryLanguage
             (detect_document_languages env.detectLangs env.detectOne text))⟩) ∧
    (∀ earlier : List (String × String),
      process_legal_documents env (earlier ++ [(root, file)]) =
        process_legal_documents env earlier ++ (processFile env root file).toList) := by
  refine ⟨?_, ?_, ?_, ?_⟩
  · intro hx
    simp [processFile, hsup, hx]
  · intro hx
    simp [processFile, hsup, hx]
  · intro text hx ht
    simp [processFile, hsup, hx, ht]
  · intro earlier
    simp only [process_legal_documents, List.filterMap_append,
      List.filterMap_cons, List.filterMap_nil]
    cases processFile env root file <;> simp

/-- An environment whose PDF extractor succeeds with non-empty text and
whose oracles give small concrete replies. -/
def envHello : Env :=
  ⟨fun _ => some "hello", fun _ => none,
   fun _ => .ok [⟨"en", 1⟩], fun _ => .ok "en",
   fun _ => .ok "Type: NDA", fun _ => .ok "fine"⟩

theorem orchestrator_record_per_file_witness :
    processFile envHello "docs" "a.pdf" = some
      ⟨"docs" ++ "/" ++ "a.pdf",
       detect_document_type_with_gemini envHello.typeResp "hello",
       detect_document_languages envHello.detectLangs envHello.detectOne "hello",
       analyze_with_gemini envHello.analysisResp "hello"
         (detect_document_type_with_gemini envHello.typeResp "hello")
         (primaryLanguage
           (detect_document_languages envHello.detectLangs envHello.detectOne "hello"))⟩ :=
  (orchestrator_record_per_file envHello "docs" "a.pdf" (by decide)).2.2.1
    "hello" rfl (by decide)

/-- C9: Every record in the output comes from a listed file that
passes both name checks (a `.pdf`/`.docx` suffix case-insensitively, and
no `~$` lock-file marker); a file failing either check never produces a
record. -/
theorem records_only_for_supported_files (env : Env)
    (files : List (String × String)) (d : DocumentRecord)
    (h : d ∈ process_legal_documents env files) :
    (∃ p, p ∈ files ∧ supportedFile p.2 = true ∧
      processFile env p.1 p.2 = some d) ∧
    (∀ root file, supportedFile file = false →
      processFile env root file = none) := by
  constructor
  · rcases List.mem_filterMap.mp h with ⟨p, hp, hpd⟩
    refine ⟨p, hp, ?_, hpd⟩
    by_cases hs : supportedFile p.2
    · exact hs
    · rw [processFile, if_neg (by simp [hs])] at hpd
      exact absurd hpd (by simp)
  · intro root file hs
    simp [processFile, hs]

/-- An environment with one successfully extracted DOCX file. -/
def envDocx : Env :=
  ⟨fun _ => none, fun _ => some "t",
   fun _ => .ok [⟨"en", 1⟩], fun _ => .ok "en",
   fun _ => .ok "Type: NDA", fun _ => .ok "ok"⟩

theorem records_only_for_supported_files_witness :
    ∃ p, p ∈ [("r", "b.docx")] ∧ supportedFile p.2 = true ∧
      processFile envDocx p.1 p.2 = some ⟨"r/b.docx", "nda", [("en", 1)], "ok"⟩ :=
  (records_only_for_supported_files envDocx [("r", "b.docx")]
    ⟨"r/b.docx", "nda", [("en", 1)], "ok"⟩ (by decide)).1
